import Mathlib

/-!
Verification of the mcpbridge tool-calling orchestration engine.

The Python sources are shallowly embedded: Python values become the
inductive `PyVal`, exceptions become `PyErr`, and each Python function
under scrutiny becomes a Lean function over these types, following the
source line by line.  Dictionaries are association lists looked up at the
first matching key; Python truthiness, `len`, `in`, indexing and
`dict.get` are modelled by the helpers below.
-/

/-- Model of a Python value (the JSON-like fragment the program uses). -/
inductive PyVal where
  | pyNone
  | pyBool (b : Bool)
  | pyInt (n : Int)
  | pyStr (s : String)
  | pyList (xs : List PyVal)
  | pyDict (kvs : List (String × PyVal))

/-- Model of the Python exceptions raised by the embedded code. -/
inductive PyErr where
  | typeError (msg : String)
  | keyError (key : String)
  | indexError
  | valueError (msg : String)
  | attributeError (missing : String)
  deriving DecidableEq

mutual

/-- Structural equality of Python values (Python ==). -/
def PyVal.beq : PyVal → PyVal → Bool
  | .pyNone, .pyNone => true
  | .pyBool a, .pyBool b => a == b
  | .pyInt a, .pyInt b => a == b
  | .pyStr a, .pyStr b => a == b
  | .pyList xs, .pyList ys => PyVal.beqList xs ys
  | .pyDict a, .pyDict b => PyVal.beqKvs a b
  | _, _ => false

/-- Elementwise equality of Python lists. -/
def PyVal.beqList : List PyVal → List PyVal → Bool
  | [], [] => true
  | x :: xs, y :: ys => PyVal.beq x y && PyVal.beqList xs ys
  | _, _ => false

/-- Entrywise equality of Python dict entry lists. -/
def PyVal.beqKvs : List (String × PyVal) → List (String × PyVal) → Bool
  | [], [] => true
  | (k1, v1) :: xs, (k2, v2) :: ys =>
      k1 == k2 && PyVal.beq v1 v2 && PyVal.beqKvs xs ys
  | _, _ => false

end

/-- First-match lookup in an association list, as Python dict lookup. -/
def lookupKey (kvs : List (String × PyVal)) (k : String) : Option PyVal :=
  match kvs with
  | [] => Option.none
  | (k2, v) :: rest => if k2 = k then Option.some v else lookupKey rest k

/-- Python truthiness of a value. -/
def PyVal.truthy : PyVal → Bool
  | .pyNone => false
  | .pyBool b => b
  | .pyInt n => decide (n ≠ 0)
  | .pyStr s => decide (s ≠ "")
  | .pyList xs => !xs.isEmpty
  | .pyDict kvs => !kvs.isEmpty

/-- Python len(v); raises TypeError on values with no length. -/
def PyVal.pyLen : PyVal → Except PyErr Nat
  | .pyStr s => .ok s.length
  | .pyList xs => .ok xs.length
  | .pyDict kvs => .ok kvs.length
  | _ => .error (.typeError "object has no len()")

/-- Substring test on character lists. -/
def listContainsSub (hay needle : List Char) : Bool :=
  (List.range (hay.length + 1)).any (fun i => needle.isPrefixOf (hay.drop i))

/-- Substring test on strings (Python needle in hay). -/
def strContainsSub (hay needle : String) : Bool :=
  listContainsSub hay.data needle.data

/-- Python membership test k in v, for a string k. -/
def PyVal.hasKey : PyVal → String → Except PyErr Bool
  | .pyDict kvs, k => .ok (lookupKey kvs k).isSome
  | .pyStr s, k => .ok (strContainsSub s k)
  | .pyList xs, k => .ok (xs.any (fun x => PyVal.beq x (PyVal.pyStr k)))
  | _, _ => .error (.typeError "argument is not iterable")

/-- Python v[k] for a string key k. -/
def PyVal.getStr : PyVal → String → Except PyErr PyVal
  | .pyDict kvs, k =>
      match lookupKey kvs k with
      | Option.some v => .ok v
      | Option.none => .error (.keyError k)
  | _, _ => .error (.typeError "indices must be integers")

/-- Python v[0]. -/
def PyVal.index0 : PyVal → Except PyErr PyVal
  | .pyList [] => .error .indexError
  | .pyList (x :: _) => .ok x
  | .pyStr s =>
      match s.data with
      | [] => .error .indexError
      | c :: _ => .ok (.pyStr (String.mk [c]))
  | .pyDict _ => .error (.keyError "0")
  | _ => .error (.typeError "object is not subscriptable")

/-- Python dict-style v.get(k, default); None on a dict without the key. -/
def PyVal.getDefault (v : PyVal) (k : String) (dflt : PyVal) : PyVal :=
  match v with
  | .pyDict kvs =>
      match lookupKey kvs k with
      | Option.some w => w
      | Option.none => dflt
  | _ => dflt

/-- Python iteration over a value: list elements, string characters,
dict keys; TypeError otherwise. -/
def pyIterItems : PyVal → Except PyErr (List PyVal)
  | .pyStr s => .ok (s.data.map (fun c => PyVal.pyStr (String.mk [c])))
  | .pyList xs => .ok xs
  | .pyDict kvs => .ok (kvs.map (fun kv => PyVal.pyStr kv.1))
  | _ => .error (.typeError "object is not iterable")

mutual

/-- Python repr of a value (quotes are rendered, not escaped further). -/
def pyRepr : PyVal → String
  | .pyNone => "None"
  | .pyBool b => if b then "True" else "False"
  | .pyInt n => toString n
  | .pyStr s => "\x27" ++ s ++ "\x27"
  | .pyList xs => "[" ++ pyReprJoin xs ++ "]"
  | .pyDict kvs => "\x7b" ++ pyReprJoinKvs kvs ++ "\x7d"

/-- Comma-joined reprs of list elements. -/
def pyReprJoin : List PyVal → String
  | [] => ""
  | [x] => pyRepr x
  | x :: rest => pyRepr x ++ ", " ++ pyReprJoin rest

/-- Comma-joined reprs of dict entries. -/
def pyReprJoinKvs : List (String × PyVal) → String
  | [] => ""
  | [(k, v)] => "\x27" ++ k ++ "\x27: " ++ pyRepr v
  | (k, v) :: rest => "\x27" ++ k ++ "\x27: " ++ pyRepr v ++ ", " ++ pyReprJoinKvs rest

end

/-- Python str() of a value. -/
def pyStrOf : PyVal → String
  | .pyStr s => s
  | v => pyRepr v

/-!
## Tool namespacing (core/tool_executor.py)

`get_tools_definition` rewrites each tool name to
server_name ++ "-" ++ original_name (line 68); `call_tool` splits the
incoming name with split('-', 1) (line 97).
-/

/-- The namespaced tool name built by ToolExecutor.get_tools_definition. -/
def namespacedName (server fn : String) : String :=
  server ++ "-" ++ fn

/-- Python s.split('-', 1) on character lists, when a dash is present. -/
def splitFirstDashChars : List Char → Option (List Char × List Char)
  | [] => Option.none
  | c :: rest =>
      if c = '-' then Option.some ([], rest)
      else
        match splitFirstDashChars rest with
        | Option.some (a, b) => Option.some (c :: a, b)
        | Option.none => Option.none

/-- Python full_tool_name.split('-', 1) as performed by call_tool. -/
def split_first_dash (s : String) : Option (String × String) :=
  match splitFirstDashChars s.data with
  | Option.some (a, b) => Option.some (String.mk a, String.mk b)
  | Option.none => Option.none

theorem splitFirstDashChars_append (server fn : List Char) (h : '-' ∉ server) :
    splitFirstDashChars (server ++ '-' :: fn) = Option.some (server, fn) := by
  induction server with
  | nil => simp [splitFirstDashChars]
  | cons c rest ih =>
      have hc : c ≠ '-' := fun hEq => h (hEq ▸ List.mem_cons_self c rest)
      have hrest : '-' ∉ rest := fun hm => h (List.mem_cons_of_mem c hm)
      simp [splitFirstDashChars, hc, ih hrest]

/-- C6, amended: when the server name holds no dash, splitting the
namespaced name on the first dash recovers the pair. -/
theorem c6_namespacing_roundtrip (server fn : String) (h : '-' ∉ server.data) :
    split_first_dash (namespacedName server fn) = Option.some (server, fn) := by
  have hdata : (namespacedName server fn).data = server.data ++ '-' :: fn.data := by
    simp [namespacedName, String.data_append]
  simp [split_first_dash, hdata, splitFirstDashChars_append server.data fn.data h]

/-- Witness for c6_namespacing_roundtrip at server "srv", function "fn". -/
theorem c6_roundtrip_witness :
    '-' ∉ ("srv" : String).data ∧
      split_first_dash (namespacedName "srv" "fn") = Option.some ("srv", "fn") :=
  ⟨by decide, c6_namespacing_roundtrip "srv" "fn" (by decide)⟩

/-- C6 counterexample: for server "a-b" and function "c" the split does
not return the original pair. -/
theorem c6_counterexample :
    split_first_dash (namespacedName "a-b" "c") = Option.some ("a", "b-c") ∧
      (("a" : String), ("b-c" : String)) ≠ (("a-b" : String), ("c" : String)) := by
  constructor
  · rfl
  · decide

/-!
## ToolResultParser (client/result_parser.py)

Each method is embedded one for one.  `is_error` returns the raw
`tool_result.get("isError", False)` in the source; both call sites apply
Python truthiness to it (`not ...`, `if ...`), which the Bool result
models.
-/

/-- ToolResultParser.is_error: truthiness of tool_result.get("isError", False). -/
def ToolResultParser.is_error (tool_result : PyVal) : Bool :=
  (tool_result.getDefault "isError" (PyVal.pyBool false)).truthy

/-- The text parts collected by ToolResultParser.extract_text_content:
the str(text) of every dict item whose "type" equals "text" and whose
"text" is truthy. -/
def textParts : List PyVal → List String
  | [] => []
  | item :: rest =>
      match item with
      | PyVal.pyDict ikvs =>
          let it := PyVal.pyDict ikvs
          if PyVal.beq (it.getDefault "type" PyVal.pyNone) (PyVal.pyStr "text") then
            let text := it.getDefault "text" (PyVal.pyStr "")
            if text.truthy then pyStrOf text :: textParts rest
            else textParts rest
          else textParts rest
      | _ => textParts rest

/-- ToolResultParser.extract_text_content: space-join the text of the
text-typed content items; the for-loop raises TypeError when the
"content" value is not iterable. -/
def ToolResultParser.extract_text_content (tool_result : PyVal) : Except PyErr String :=
  let content_items := tool_result.getDefault "content" (PyVal.pyList [])
  match pyIterItems content_items with
  | .error e => .error e
  | .ok items => .ok (String.intercalate " " (textParts items))

/-- ToolResultParser.extract_structured_content: the entries of the
"structuredContent" mapping, or no entries when it is absent or not a
dict (the source logs and returns an empty dict in that case). -/
def ToolResultParser.extract_structured_content (tool_result : PyVal) : List (String × PyVal) :=
  match tool_result.getDefault "structuredContent" (PyVal.pyDict []) with
  | PyVal.pyDict kvs => kvs
  | _ => []

/-- The per-item metadata list built by ToolResultParser.extract_metadata:
for each dict item, its non-None "_meta" and "annotations" fields. -/
def metaItems : List PyVal → List PyVal
  | [] => []
  | item :: rest =>
      match item with
      | PyVal.pyDict ikvs =>
          let it := PyVal.pyDict ikvs
          let im1 : List (String × PyVal) :=
            match it.getDefault "_meta" PyVal.pyNone with
            | PyVal.pyNone => []
            | w => [("_meta", w)]
          let im2 : List (String × PyVal) :=
            match it.getDefault "annotations" PyVal.pyNone with
            | PyVal.pyNone => []
            | w => [("annotations", w)]
          let im := im1 ++ im2
          if im.isEmpty then metaItems rest else PyVal.pyDict im :: metaItems rest
      | _ => metaItems rest

/-- ToolResultParser.extract_metadata: top-level "_meta" (when present
and not None) plus the per-item metadata of the content items. -/
def ToolResultParser.extract_metadata (tool_result : PyVal) : Except PyErr PyVal :=
  match tool_result.hasKey "_meta" with
  | .error e => .error e
  | .ok has_meta =>
      let step1 : Except PyErr (List (String × PyVal)) :=
        if has_meta then
          match tool_result.getStr "_meta" with
          | .error e => .error e
          | .ok v =>
              match v with
              | PyVal.pyNone => .ok []
              | w => .ok [("tool_meta", w)]
        else .ok []
      match step1 with
      | .error e => .error e
      | .ok kvs1 =>
          let content_items := tool_result.getDefault "content" (PyVal.pyList [])
          match pyIterItems content_items with
          | .error e => .error e
          | .ok items =>
              let content_metadata := metaItems items
              .ok (PyVal.pyDict
                (kvs1 ++
                  if content_metadata.isEmpty then []
                  else [("content_metadata", PyVal.pyList content_metadata)]))

/-- ToolResultParser.get_result_summary. -/
def ToolResultParser.get_result_summary (tool_result : PyVal) : Except PyErr String :=
  if ToolResultParser.is_error tool_result then .ok "Tool execution failed"
  else
    match ToolResultParser.extract_text_content tool_result with
    | .error e => .error e
    | .ok text_content =>
        if text_content = "" then
          let skvs := ToolResultParser.extract_structured_content tool_result
          if !skvs.isEmpty then
            match lookupKey skvs "result" with
            | Option.some v =>
                .ok ("Tool executed successfully with result: " ++ pyStrOf v)
            | Option.none =>
                .ok ("Tool executed successfully with " ++ toString skvs.length ++
                  " data fields")
          else .ok "Tool executed successfully"
        else
          if text_content.length > 100 then
            .ok ("Tool executed successfully: " ++ text_content.take 97 ++ "...")
          else .ok ("Tool executed successfully: " ++ text_content)

/-- ToolResultParser.extract_error_info. -/
def ToolResultParser.extract_error_info (tool_result : PyVal) : Except PyErr PyVal :=
  match ToolResultParser.extract_text_content tool_result with
  | .error e => .error e
  | .ok text_content =>
      let message :=
        if text_content = "" then PyVal.pyStr "Tool execution failed"
        else PyVal.pyStr text_content
      let skvs := ToolResultParser.extract_structured_content tool_result
      if !skvs.isEmpty then
        .ok (PyVal.pyDict
          [("error_type", (PyVal.pyDict skvs).getDefault "error_type" (PyVal.pyStr "unknown")),
           ("message", message),
           ("details", (PyVal.pyDict skvs).getDefault "details" (PyVal.pyStr ""))])
      else
        .ok (PyVal.pyDict
          [("error_type", PyVal.pyStr "unknown"),
           ("message", message),
           ("details", PyVal.pyStr "")])

/-- ToolResultParser.validate_result_structure. -/
def ToolResultParser.validate_result_structure (tool_result : PyVal) : Bool :=
  match tool_result with
  | PyVal.pyDict kvs =>
      if (lookupKey kvs "isError").isNone then false
      else
        (match lookupKey kvs "content" with
         | Option.some (PyVal.pyList items) =>
             items.all (fun item =>
               match item with
               | PyVal.pyDict ikvs => (lookupKey ikvs "type").isSome
               | _ => false)
         | Option.some _ => false
         | Option.none => true)
        &&
        (match lookupKey kvs "structuredContent" with
         | Option.some (PyVal.pyDict _) => true
         | Option.some PyVal.pyNone => true
         | Option.some _ => false
         | Option.none => true)
  | _ => false

/-- The standardized result dict built by ToolResultParser.parse; its six
fixed keys become record fields. -/
structure ParsedResult where
  success : Bool
  text_content : String
  structured_data : PyVal
  summary : String
  metadata : PyVal
  error_info : PyVal

/-- ToolResultParser.parse: validate, then assemble the standardized
result; raises ValueError on an invalid structure. -/
def ToolResultParser.parse (tool_result : PyVal) : Except PyErr ParsedResult :=
  if !ToolResultParser.validate_result_structure tool_result then
    .error (.valueError "Invalid tool result structure")
  else
    let success := !ToolResultParser.is_error tool_result
    match (if success then Except.ok PyVal.pyNone
           else ToolResultParser.extract_error_info tool_result) with
    | .error e => .error e
    | .ok error_info =>
        match ToolResultParser.extract_text_content tool_result with
        | .error e => .error e
        | .ok text_content =>
            let structured_data :=
              PyVal.pyDict (ToolResultParser.extract_structured_content tool_result)
            match ToolResultParser.extract_metadata tool_result with
            | .error e => .error e
            | .ok metadata =>
                match ToolResultParser.get_result_summary tool_result with
                | .error e => .error e
                | .ok summary =>
                    .ok ⟨success, text_content, structured_data, summary, metadata, error_info⟩

/-!
## ToolExecutor.call_tool (core/tool_executor.py, lines 74-105)

A registered stdio client is abstracted to the raw result its
call_tool(function_name, arguments) coroutine returns.  The final line of
the source, parser.parse(tool_id, raw_result), passes two positional
arguments to ToolResultParser.parse, which accepts one: the interpreter
raises TypeError before the parse body runs.
-/

/-- A tool-server client, as the raw result of call_tool(function, args). -/
def MCPClient : Type := String → PyVal → PyVal

/-- self._clients.get(tool_name): first-match lookup by server name. -/
def lookupClient (clients : List (String × MCPClient)) (k : String) : Option MCPClient :=
  match clients with
  | [] => Option.none
  | (k2, c) :: rest => if k2 = k then Option.some c else lookupClient rest k

/-- The Python call parser.parse(tool_id, raw_result) at
tool_executor.py line 105: ToolResultParser.parse takes a single
positional parameter besides self, so the call raises TypeError without
running the method body. -/
def parseCalledWithTwoArgs (_tool_id _raw_result : PyVal) : Except PyErr ParsedResult :=
  .error (.typeError "parse() takes 2 positional arguments but 3 were given")

/-- ToolExecutor.call_tool: read name, arguments and id from the tool
call, require a dash in the name, split on the first dash, route to the
registered client, and hand tool_id and the raw result to the parser
(which is the arity-mismatched call above). -/
def ToolExecutor.call_tool (clients : List (String × MCPClient)) (tool_call : PyVal) :
    Except PyErr ParsedResult :=
  match tool_call.getStr "name" with
  | .error e => .error e
  | .ok full_tool_name =>
  match tool_call.getStr "arguments" with
  | .error e => .error e
  | .ok tool_args =>
  match tool_call.getStr "id" with
  | .error e => .error e
  | .ok tool_id =>
  match full_tool_name with
  | PyVal.pyStr s =>
      match split_first_dash s with
      | Option.none =>
          .error (.valueError ("Invalid tool name format: \x27" ++ s ++
            "\x27. Expected \x27server_name-tool_name\x27."))
      | Option.some (tool_name, function_name) =>
          match lookupClient clients tool_name with
          | Option.none =>
              .error (.valueError ("Tool server \x27" ++ tool_name ++
                "\x27 not found in available clients"))
          | Option.some client =>
              let raw_result := client function_name tool_args
              parseCalledWithTwoArgs tool_id raw_result
  | v =>
      match v.hasKey "-" with
      | .error e => .error e
      | .ok has_dash =>
          if !has_dash then
            .error (.valueError ("Invalid tool name format: \x27" ++ pyStrOf v ++
              "\x27. Expected \x27server_name-tool_name\x27."))
          else .error (.attributeError "split")

theorem strContainsSub_middle (pre mid post : String) :
    strContainsSub (pre ++ mid ++ post) mid = true := by
  unfold strContainsSub listContainsSub
  rw [List.any_eq_true]
  refine ⟨pre.data.length, ?_, ?_⟩
  · rw [List.mem_range]
    have : (pre ++ mid ++ post).data = pre.data ++ (mid.data ++ post.data) := by
      simp [String.data_append]
    rw [this, List.length_append]
    omega
  · have : (pre ++ mid ++ post).data = pre.data ++ (mid.data ++ post.data) := by
      simp [String.data_append]
    rw [this, List.drop_left]
    rw [ List.isPrefixOf_iff_prefix]
    exact List.prefix_append mid.data post.data

/-- C8, amended: a name without a separator makes call_tool raise a
format ValueError, and a name whose server prefix has no registered
client makes it raise a routing ValueError whose message contains the
unknown server name (the message does not quote the full requested
name). -/
theorem c8_call_tool_errors (clients : List (String × MCPClient)) :
    (∀ s args tid, split_first_dash s = Option.none →
        ToolExecutor.call_tool clients
            (PyVal.pyDict [("name", PyVal.pyStr s), ("arguments", args), ("id", tid)]) =
          .error (.valueError ("Invalid tool name format: \x27" ++ s ++
            "\x27. Expected \x27server_name-tool_name\x27."))) ∧
    (∀ s server fn args tid, split_first_dash s = Option.some (server, fn) →
        lookupClient clients server = Option.none →
        ToolExecutor.call_tool clients
            (PyVal.pyDict [("name", PyVal.pyStr s), ("arguments", args), ("id", tid)]) =
          .error (.valueError ("Tool server \x27" ++ server ++
            "\x27 not found in available clients")) ∧
        strContainsSub ("Tool server \x27" ++ server ++
            "\x27 not found in available clients") server = true) := by
  constructor
  · intro s args tid hsplit
    simp [ToolExecutor.call_tool, PyVal.getStr, lookupKey, hsplit]
  · intro s server fn args tid hsplit hclient
    constructor
    · simp [ToolExecutor.call_tool, PyVal.getStr, lookupKey, hsplit, hclient]
    · exact strContainsSub_middle ("Tool server \x27" ++ server) ""
        "\x27 not found in available clients" ▸
        strContainsSub_middle "Tool server \x27" server
          "\x27 not found in available clients"

/-- Witness for c8_call_tool_errors: the two error paths at concrete
inputs "nodash" and "ghost-fn" with no registered client. -/
theorem c8_call_tool_errors_witness :
    (ToolExecutor.call_tool []
        (PyVal.pyDict [("name", PyVal.pyStr "nodash"),
          ("arguments", PyVal.pyDict []), ("id", PyVal.pyStr "1")]) =
      .error (.valueError ("Invalid tool name format: \x27nodash\x27. " ++
        "Expected \x27server_name-tool_name\x27."))) ∧
    (ToolExecutor.call_tool []
        (PyVal.pyDict [("name", PyVal.pyStr "ghost-fn"),
          ("arguments", PyVal.pyDict []), ("id", PyVal.pyStr "1")]) =
      .error (.valueError "Tool server \x27ghost\x27 not found in available clients")) := by
  constructor
  · have h := (c8_call_tool_errors []).1 "nodash" (PyVal.pyDict []) (PyVal.pyStr "1")
      (by rfl)
    simpa using h
  · have h := ((c8_call_tool_errors []).2 "ghost-fn" "ghost" "fn" (PyVal.pyDict [])
      (PyVal.pyStr "1") (by rfl) (by rfl)).1
    simpa using h

/-- C8 counterexample: the routing error for "ghost-fn" does not contain
the full requested name, only the server prefix. -/
theorem c8_counterexample :
    ToolExecutor.call_tool []
        (PyVal.pyDict [("name", PyVal.pyStr "ghost-fn"),
          ("arguments", PyVal.pyDict []), ("id", PyVal.pyStr "1")]) =
      .error (.valueError "Tool server \x27ghost\x27 not found in available clients") ∧
    strContainsSub "Tool server \x27ghost\x27 not found in available clients"
        "ghost-fn" = false := by
  constructor
  · rfl
  · rfl

/-- C1: with a registered server "srv" returning a well-formed raw
result, call_tool for the request srv-fn does not return a normalized
result: the final parser.parse(tool_id, raw_result) call raises
TypeError, because ToolResultParser.parse accepts only the raw result. -/
theorem c1_call_tool_parse_arity_bug :
    ToolExecutor.call_tool
        [("srv", fun _ _ => PyVal.pyDict
          [("isError", PyVal.pyBool false),
           ("content", PyVal.pyList
             [PyVal.pyDict [("type", PyVal.pyStr "text"), ("text", PyVal.pyStr "ok")]])])]
        (PyVal.pyDict [("name", PyVal.pyStr "srv-fn"),
          ("arguments", PyVal.pyDict []), ("id", PyVal.pyStr "call1")]) =
      .error (.typeError "parse() takes 2 positional arguments but 3 were given") := by
  rfl

/-!
## Behaviour of parse on validated results (claims about C7 and C9)
-/

/-- After validation, the "content" entry is absent or a list. -/
def contentOk (kvs : List (String × PyVal)) : Prop :=
  lookupKey kvs "content" = Option.none ∨
    ∃ items, lookupKey kvs "content" = Option.some (PyVal.pyList items)

theorem validate_contentOk (kvs : List (String × PyVal))
    (h : ToolResultParser.validate_result_structure (PyVal.pyDict kvs) = true) :
    contentOk kvs := by
  rcases hc : lookupKey kvs "content" with _ | v
  · exact Or.inl hc
  · cases v
    case pyList items => exact Or.inr ⟨items, hc⟩
    all_goals simp [ToolResultParser.validate_result_structure, hc] at h

theorem extract_text_content_ok (kvs : List (String × PyVal)) (h : contentOk kvs) :
    ∃ t, ToolResultParser.extract_text_content (PyVal.pyDict kvs) = .ok t := by
  unfold ToolResultParser.extract_text_content
  rcases h with hc | ⟨items, hc⟩ <;> simp [PyVal.getDefault, hc, pyIterItems]

theorem extract_metadata_ok (kvs : List (String × PyVal)) (h : contentOk kvs) :
    ∃ v, ToolResultParser.extract_metadata (PyVal.pyDict kvs) = .ok v := by
  rcases hm : lookupKey kvs "_meta" with _ | w
  · rcases h with hc | ⟨items, hc⟩ <;>
      simp [ToolResultParser.extract_metadata, PyVal.hasKey, hm, PyVal.getStr,
        PyVal.getDefault, hc, pyIterItems]
  · cases w <;> rcases h with hc | ⟨items, hc⟩ <;>
      simp [ToolResultParser.extract_metadata, PyVal.hasKey, hm, PyVal.getStr,
        PyVal.getDefault, hc, pyIterItems]

theorem get_result_summary_ok (kvs : List (String × PyVal)) (h : contentOk kvs) :
    ∃ s, ToolResultParser.get_result_summary (PyVal.pyDict kvs) = .ok s := by
  unfold ToolResultParser.get_result_summary
  by_cases herr : ToolResultParser.is_error (PyVal.pyDict kvs)
  · simp [herr]
  · obtain ⟨t, ht⟩ := extract_text_content_ok kvs h
    simp [herr, ht]
    split
    · split
      · split <;> simp
      · simp
    · split <;> simp

theorem extract_error_info_ok (kvs : List (String × PyVal)) (h : contentOk kvs) :
    ∃ v, ToolResultParser.extract_error_info (PyVal.pyDict kvs) = .ok v := by
  unfold ToolResultParser.extract_error_info
  obtain ⟨t, ht⟩ := extract_text_content_ok kvs h
  simp [ht]
  split <;> simp

theorem parse_ok_of_valid (kvs : List (String × PyVal))
    (hval : ToolResultParser.validate_result_structure (PyVal.pyDict kvs) = true) :
    ∃ res, ToolResultParser.parse (PyVal.pyDict kvs) = .ok res ∧
      res.success = !ToolResultParser.is_error (PyVal.pyDict kvs) ∧
      res.structured_data =
        PyVal.pyDict (ToolResultParser.extract_structured_content (PyVal.pyDict kvs)) ∧
      ToolResultParser.extract_text_content (PyVal.pyDict kvs) = .ok res.text_content ∧
      ToolResultParser.get_result_summary (PyVal.pyDict kvs) = .ok res.summary := by
  have hcontent := validate_contentOk kvs hval
  obtain ⟨t, ht⟩ := extract_text_content_ok kvs hcontent
  obtain ⟨m, hm⟩ := extract_metadata_ok kvs hcontent
  obtain ⟨s, hs⟩ := get_result_summary_ok kvs hcontent
  obtain ⟨e, he⟩ := extract_error_info_ok kvs hcontent
  by_cases herr : ToolResultParser.is_error (PyVal.pyDict kvs)
  · refine ⟨⟨!ToolResultParser.is_error (PyVal.pyDict kvs), t,
      PyVal.pyDict (ToolResultParser.extract_structured_content (PyVal.pyDict kvs)),
      s, m, e⟩, ?_, rfl, rfl, ht, hs⟩
    simp [ToolResultParser.parse, hval, herr, ht, hm, hs, he]
  · refine ⟨⟨!ToolResultParser.is_error (PyVal.pyDict kvs), t,
      PyVal.pyDict (ToolResultParser.extract_structured_content (PyVal.pyDict kvs)),
      s, m, PyVal.pyNone⟩, ?_, rfl, rfl, ht, hs⟩
    simp [ToolResultParser.parse, hval, herr, ht, hm, hs, he]

/-- C7, amended: an absent or null structuredContent degrades to an
empty structured_data mapping and parse succeeds; any other wrong-typed
structuredContent instead fails structural validation (see the
counterexample). -/
theorem c7_structured_content_degrade (kvs : List (String × PyVal))
    (hval : ToolResultParser.validate_result_structure (PyVal.pyDict kvs) = true)
    (habs : lookupKey kvs "structuredContent" = Option.none ∨
        lookupKey kvs "structuredContent" = Option.some PyVal.pyNone) :
    (ToolResultParser.parse (PyVal.pyDict kvs)).toOption.map ParsedResult.structured_data =
      Option.some (PyVal.pyDict []) := by
  obtain ⟨res, hp, _, hsd, _, _⟩ := parse_ok_of_valid kvs hval
  have hempty : ToolResultParser.extract_structured_content (PyVal.pyDict kvs) = [] := by
    rcases habs with h | h <;>
      simp [ToolResultParser.extract_structured_content, PyVal.getDefault, h]
  rw [hp]
  simp [Except.toOption, hsd, hempty]

/-- Witness for c7_structured_content_degrade at a result whose
structuredContent is null. -/
theorem c7_structured_witness :
    ToolResultParser.validate_result_structure (PyVal.pyDict
        [("isError", PyVal.pyBool false), ("structuredContent", PyVal.pyNone)]) = true ∧
    (ToolResultParser.parse (PyVal.pyDict
        [("isError", PyVal.pyBool false),
         ("structuredContent", PyVal.pyNone)])).toOption.map ParsedResult.structured_data =
      Option.some (PyVal.pyDict []) :=
  ⟨by rfl, c7_structured_content_degrade _ (by rfl) (Or.inr (by rfl))⟩

/-- C7 counterexample: a string-valued structuredContent makes the whole
parse fail with the structural ValueError, instead of degrading. -/
theorem c7_counterexample :
    ToolResultParser.parse (PyVal.pyDict
        [("isError", PyVal.pyBool false), ("structuredContent", PyVal.pyStr "oops")]) =
      .error (.valueError "Invalid tool result structure") := by
  rfl

/-- C9, amended: for a validated success result with non-empty text
content, the summary is "Tool executed successfully: " followed by the
text content, truncated to its first 97 characters plus "..." exactly
when the text content is longer than 100 characters; the parsed result
also reports success and that text content.  (With empty text content the
summary instead falls back, without the ": " part — see the
counterexample.) -/
theorem c9_success_summary (kvs : List (String × PyVal)) (t : String)
    (hval : ToolResultParser.validate_result_structure (PyVal.pyDict kvs) = true)
    (herr : ToolResultParser.is_error (PyVal.pyDict kvs) = false)
    (htext : ToolResultParser.extract_text_content (PyVal.pyDict kvs) = .ok t)
    (hne : t ≠ "") :
    (ToolResultParser.parse (PyVal.pyDict kvs)).toOption.map ParsedResult.summary =
      Option.some (if t.length > 100
        then "Tool executed successfully: " ++ t.take 97 ++ "..."
        else "Tool executed successfully: " ++ t) ∧
    (ToolResultParser.parse (PyVal.pyDict kvs)).toOption.map ParsedResult.success =
      Option.some true ∧
    (ToolResultParser.parse (PyVal.pyDict kvs)).toOption.map ParsedResult.text_content =
      Option.some t := by
  obtain ⟨res, hp, hsucc, hsd, ht', hs'⟩ := parse_ok_of_valid kvs hval
  have htc : res.text_content = t := by
    rw [htext] at ht'
    exact (Except.ok.inj ht').symm
  have hsum : ToolResultParser.get_result_summary (PyVal.pyDict kvs) =
      .ok (if t.length > 100
        then "Tool executed successfully: " ++ t.take 97 ++ "..."
        else "Tool executed successfully: " ++ t) := by
    unfold ToolResultParser.get_result_summary
    simp [herr, htext, hne]
    split <;> rfl
  rw [hs'] at hsum
  have hsummary := Except.ok.inj hsum
  rw [hp]
  simp [Except.toOption, hsummary, htc, hsucc, herr]

/-- Witness for c9_success_summary at isError=false,
content=[(type text, text ok)]. -/
theorem c9_success_summary_witness :
    ToolResultParser.validate_result_structure (PyVal.pyDict
        [("isError", PyVal.pyBool false),
         ("content", PyVal.pyList
           [PyVal.pyDict [("type", PyVal.pyStr "text"),
             ("text", PyVal.pyStr "ok")]])]) = true ∧
    (ToolResultParser.parse (PyVal.pyDict
        [("isError", PyVal.pyBool false),
         ("content", PyVal.pyList
           [PyVal.pyDict [("type", PyVal.pyStr "text"),
             ("text", PyVal.pyStr "ok")]])])).toOption.map ParsedResult.summary =
      Option.some "Tool executed successfully: ok" ∧
    (ToolResultParser.parse (PyVal.pyDict
        [("isError", PyVal.pyBool false),
         ("content", PyVal.pyList
           [PyVal.pyDict [("type", PyVal.pyStr "text"),
             ("text", PyVal.pyStr "ok")]])])).toOption.map ParsedResult.success =
      Option.some true ∧
    (ToolResultParser.parse (PyVal.pyDict
        [("isError", PyVal.pyBool false),
         ("content", PyVal.pyList
           [PyVal.pyDict [("type", PyVal.pyStr "text"),
             ("text", PyVal.pyStr "ok")]])])).toOption.map ParsedResult.text_content =
      Option.some "ok" := by
  have h := c9_success_summary
    [("isError", PyVal.pyBool false),
     ("content", PyVal.pyList
       [PyVal.pyDict [("type", PyVal.pyStr "text"), ("text", PyVal.pyStr "ok")]])]
    "ok" (by rfl) (by rfl) (by rfl) (by decide)
  refine ⟨by rfl, ?_, h.2.1, h.2.2⟩
  rw [h.1]
  decide

/-- C9 counterexample: a success result with no text content gets the
fallback summary, not "Tool executed successfully: " followed by the
(empty) text content. -/
theorem c9_counterexample :
    (ToolResultParser.parse (PyVal.pyDict
        [("isError", PyVal.pyBool false)])).toOption.map ParsedResult.summary =
      Option.some "Tool executed successfully" ∧
    ("Tool executed successfully" : String) ≠ "Tool executed successfully: " ++ "" :=
  ⟨by rfl, by decide⟩

/-!
## Provider response parsers (llm/openai/parser.py, llm/gemini/parser.py)

OpenAIParser.need_tools_call returns True/False inside its guarded
branch and falls off the end — returning Python None — when the guard
fails, hence the result type Except PyErr (Option Bool).

OpenAIParser.prepare_tools_call converts each provider tool call through
self._convert_openai_tool_call_to_mcp.  No method of that name exists on
OpenAIParser or its base class (the defined converter is named
_convert_tools_format), so the attribute lookup raises AttributeError on
every iteration; the blanket `except Exception` swallows it and the item
is skipped.

GeminiParser.need_tools_call returns the raw Python value of
"toolCalls" in prediction and prediction["toolCalls"] — False, or the
toolCalls value itself — hence the result type Except PyErr PyVal.
-/

/-- OpenAIParser.need_tools_call. -/
def OpenAIParser.need_tools_call (response : PyVal) : Except PyErr (Option Bool) :=
  match response with
  | PyVal.pyDict kvs =>
      match lookupKey kvs "choices" with
      | Option.none => .ok Option.none
      | Option.some choices =>
          match choices.pyLen with
          | .error e => .error e
          | .ok n =>
              if n > 0 then
                match choices.index0 with
                | .error e => .error e
                | .ok c0 =>
                    match c0.getStr "message" with
                    | .error e => .error e
                    | .ok msg =>
                        match msg.hasKey "tool_calls" with
                        | .error e => .error e
                        | .ok b => .ok (Option.some b)
              else .ok Option.none
  | _ => .ok Option.none

/-- The Python call self._convert_openai_tool_call_to_mcp(tool_call) at
openai/parser.py line 67: the attribute is undefined on the class, so
the lookup raises AttributeError before any conversion happens. -/
def convert_openai_tool_call_to_mcp (_tool_call : PyVal) : Except PyErr PyVal :=
  .error (.attributeError "_convert_openai_tool_call_to_mcp")

/-- The per-item loop of OpenAIParser.prepare_tools_call: a converted
call is appended; any exception from the conversion is caught and the
item skipped. -/
def openaiLoop : List PyVal → List PyVal
  | [] => []
  | item :: rest =>
      match convert_openai_tool_call_to_mcp item with
      | .error _ => openaiLoop rest
      | .ok mcp => mcp :: openaiLoop rest

/-- OpenAIParser.prepare_tools_call. -/
def OpenAIParser.prepare_tools_call (response : PyVal) : Except PyErr (List PyVal) :=
  match response with
  | PyVal.pyDict kvs =>
      match lookupKey kvs "choices" with
      | Option.none => .ok []
      | Option.some choices =>
          match choices.pyLen with
          | .error e => .error e
          | .ok n =>
              if n > 0 then
                match choices.index0 with
                | .error e => .error e
                | .ok c0 =>
                    match c0.getStr "message" with
                    | .error e => .error e
                    | .ok msg =>
                        match msg.hasKey "tool_calls" with
                        | .error e => .error e
                        | .ok has_tc =>
                            if has_tc then
                              match msg.getStr "tool_calls" with
                              | .error e => .error e
                              | .ok tcv =>
                                  if tcv.truthy then
                                    match pyIterItems tcv with
                                    | .error e => .error e
                                    | .ok items => .ok (openaiLoop items)
                                  else .ok []
                            else .ok []
              else .ok []
  | _ => .ok []

/-- GeminiParser.need_tools_call. -/
def GeminiParser.need_tools_call (response : PyVal) : Except PyErr PyVal :=
  match response with
  | PyVal.pyDict kvs =>
      match lookupKey kvs "predictions" with
      | Option.none => .ok (PyVal.pyBool false)
      | Option.some preds =>
          match preds.index0 with
          | .error e => .error e
          | .ok prediction =>
              match prediction.hasKey "toolCalls" with
              | .error e => .error e
              | .ok has =>
                  if has then
                    match prediction.getStr "toolCalls" with
                    | .error e => .error e
                    | .ok tc => .ok tc
                  else .ok (PyVal.pyBool false)
  | _ => .ok (PyVal.pyBool false)

/-- C5, amended: OpenAI need_tools_call answers True exactly when the
message of the first choice contains the key "tool_calls" — even an
empty collection; it yields Python None — falsy but not False — when
the response is not a mapping, lacks the "choices" key, or carries an
empty choices list; it raises KeyError when the first choice is a
mapping without "message", and raises TypeError when the choices value
has no length (for example an integer).  Gemini need_tools_call yields
False on non-mapping or predictions-less responses and otherwise
returns the raw toolCalls value of the first prediction (truthy exactly
when non-empty) or False when the key is absent; it raises IndexError
on an empty predictions list (see the counterexample). -/
theorem c5_need_tools_call_amended :
    (∀ kvs cs rest mkvs,
        lookupKey kvs "choices" = Option.some (PyVal.pyList (PyVal.pyDict cs :: rest)) →
        lookupKey cs "message" = Option.some (PyVal.pyDict mkvs) →
        OpenAIParser.need_tools_call (PyVal.pyDict kvs) =
          .ok (Option.some (lookupKey mkvs "tool_calls").isSome)) ∧
    (∀ v, (∀ kvs, v ≠ PyVal.pyDict kvs) →
        OpenAIParser.need_tools_call v = .ok Option.none) ∧
    (∀ kvs, lookupKey kvs "choices" = Option.none →
        OpenAIParser.need_tools_call (PyVal.pyDict kvs) = .ok Option.none) ∧
    (∀ kvs, lookupKey kvs "choices" = Option.some (PyVal.pyList []) →
        OpenAIParser.need_tools_call (PyVal.pyDict kvs) = .ok Option.none) ∧
    (∀ kvs cs rest,
        lookupKey kvs "choices" = Option.some (PyVal.pyList (PyVal.pyDict cs :: rest)) →
        lookupKey cs "message" = Option.none →
        OpenAIParser.need_tools_call (PyVal.pyDict kvs) =
          .error (.keyError "message")) ∧
    (∀ kvs n, lookupKey kvs "choices" = Option.some (PyVal.pyInt n) →
        OpenAIParser.need_tools_call (PyVal.pyDict kvs) =
          .error (.typeError "object has no len()")) ∧
    (∀ v, (∀ kvs, v ≠ PyVal.pyDict kvs) →
        GeminiParser.need_tools_call v = .ok (PyVal.pyBool false)) ∧
    (∀ kvs, lookupKey kvs "predictions" = Option.none →
        GeminiParser.need_tools_call (PyVal.pyDict kvs) = .ok (PyVal.pyBool false)) ∧
    (∀ kvs pkvs rest,
        lookupKey kvs "predictions" =
          Option.some (PyVal.pyList (PyVal.pyDict pkvs :: rest)) →
        GeminiParser.need_tools_call (PyVal.pyDict kvs) =
          .ok (match lookupKey pkvs "toolCalls" with
            | Option.some tc => tc
            | Option.none => PyVal.pyBool false)) := by
  refine ⟨?_, ?_, ?_, ?_, ?_, ?_, ?_, ?_, ?_⟩
  · intro kvs cs rest mkvs hch hmsg
    simp [OpenAIParser.need_tools_call, hch, hmsg, PyVal.pyLen, PyVal.index0,
      PyVal.getStr, PyVal.hasKey]
  · intro v hv
    cases v
    case pyDict kvs => exact absurd rfl (hv kvs)
    all_goals simp [OpenAIParser.need_tools_call]
  · intro kvs hch
    simp [OpenAIParser.need_tools_call, hch]
  · intro kvs hch
    simp [OpenAIParser.need_tools_call, hch, PyVal.pyLen]
  · intro kvs cs rest hch hmsg
    simp [OpenAIParser.need_tools_call, hch, hmsg, PyVal.pyLen, PyVal.index0,
      PyVal.getStr]
  · intro kvs n hch
    simp [OpenAIParser.need_tools_call, hch, PyVal.pyLen]
  · intro v hv
    cases v
    case pyDict kvs => exact absurd rfl (hv kvs)
    all_goals simp [GeminiParser.need_tools_call]
  · intro kvs hp
    simp [GeminiParser.need_tools_call, hp]
  · intro kvs pkvs rest hp
    rcases hl : lookupKey pkvs "toolCalls" with _ | tc <;>
      simp [GeminiParser.need_tools_call, hp, PyVal.index0, PyVal.hasKey,
        PyVal.getStr, hl]

/-- Witness for c5_need_tools_call_amended: a message with a tool_calls
key, a string response, a choices-less mapping, an empty choices list,
a first choice without message, an integer choices value, and a
non-mapping Gemini response. -/
theorem c5_need_tools_call_witness :
    OpenAIParser.need_tools_call (PyVal.pyDict
        [("choices", PyVal.pyList [PyVal.pyDict [("message", PyVal.pyDict
          [("tool_calls", PyVal.pyList [PyVal.pyStr "x"])])]])]) =
      .ok (Option.some true) ∧
    OpenAIParser.need_tools_call (PyVal.pyStr "oops") = .ok Option.none ∧
    OpenAIParser.need_tools_call (PyVal.pyDict [("id", PyVal.pyStr "1")]) =
      .ok Option.none ∧
    OpenAIParser.need_tools_call (PyVal.pyDict [("choices", PyVal.pyList [])]) =
      .ok Option.none ∧
    OpenAIParser.need_tools_call (PyVal.pyDict
        [("choices", PyVal.pyList [PyVal.pyDict [("index", PyVal.pyInt 0)]])]) =
      .error (.keyError "message") ∧
    OpenAIParser.need_tools_call (PyVal.pyDict [("choices", PyVal.pyInt 5)]) =
      .error (.typeError "object has no len()") ∧
    GeminiParser.need_tools_call (PyVal.pyInt 3) = .ok (PyVal.pyBool false) := by
  refine ⟨?_, ?_, ?_, ?_, ?_, ?_, ?_⟩
  · have h := c5_need_tools_call_amended.1
      [("choices", PyVal.pyList [PyVal.pyDict [("message", PyVal.pyDict
        [("tool_calls", PyVal.pyList [PyVal.pyStr "x"])])]])]
      [("message", PyVal.pyDict [("tool_calls", PyVal.pyList [PyVal.pyStr "x"])])]
      [] [("tool_calls", PyVal.pyList [PyVal.pyStr "x"])] (by rfl) (by rfl)
    simpa [lookupKey] using h
  · exact c5_need_tools_call_amended.2.1 _ (fun kvs h => PyVal.noConfusion h)
  · exact c5_need_tools_call_amended.2.2.1 _ (by rfl)
  · exact c5_need_tools_call_amended.2.2.2.1 _ (by rfl)
  · exact c5_need_tools_call_amended.2.2.2.2.1 _ [("index", PyVal.pyInt 0)] []
      (by rfl) (by rfl)
  · exact c5_need_tools_call_amended.2.2.2.2.2.1 _ 5 (by rfl)
  · exact c5_need_tools_call_amended.2.2.2.2.2.2.1 _ (fun kvs h => PyVal.noConfusion h)

/-- C5 counterexample: an empty tool_calls collection still answers
True for OpenAI, and an empty predictions list raises IndexError for
Gemini — the claim requires False without raising in both cases. -/
theorem c5_counterexample :
    OpenAIParser.need_tools_call (PyVal.pyDict
        [("choices", PyVal.pyList [PyVal.pyDict [("message", PyVal.pyDict
          [("tool_calls", PyVal.pyList [])])]])]) = .ok (Option.some true) ∧
    GeminiParser.need_tools_call (PyVal.pyDict [("predictions", PyVal.pyList [])]) =
      .error PyErr.indexError :=
  ⟨rfl, rfl⟩

theorem openaiLoop_eq_nil (items : List PyVal) : openaiLoop items = [] := by
  induction items with
  | nil => rfl
  | cons x rest ih => simp [openaiLoop, convert_openai_tool_call_to_mcp, ih]

theorem openai_prepare_tools_call_never_nonempty (response : PyVal) :
    ∀ l, OpenAIParser.prepare_tools_call response = .ok l → l = [] := by
  intro l h
  unfold OpenAIParser.prepare_tools_call at h
  repeat' split at h
  all_goals simp_all [openaiLoop_eq_nil]

/-- C2: a response carrying two tool calls — one well-formed, one whose
arguments string is not JSON — yields an empty batch from
prepare_tools_call, not the single well-formed request: the conversion of every
item hits the undefined method _convert_openai_tool_call_to_mcp,
whose AttributeError the blanket handler swallows. -/
theorem c2_prepare_tools_call_returns_empty :
    OpenAIParser.prepare_tools_call (PyVal.pyDict
        [("choices", PyVal.pyList [PyVal.pyDict [("message", PyVal.pyDict
          [("tool_calls", PyVal.pyList
            [PyVal.pyDict [("id", PyVal.pyStr "call1"),
              ("function", PyVal.pyDict [("name", PyVal.pyStr "srv-fn"),
                ("arguments", PyVal.pyStr "\x7b\x22q\x22: 1\x7d")])],
             PyVal.pyDict [("id", PyVal.pyStr "call2"),
              ("function", PyVal.pyDict [("name", PyVal.pyStr "srv-other"),
                ("arguments", PyVal.pyStr "not json")])]])])]])]) = .ok [] := by
  rfl

/-!
## Conversation (core/conversation.py)

Messages are the pydantic variants of message_models.py; the assistant
variant keeps the raw content and optional tool_calls values that
add_assistant_message passes to it.
-/

/-- The typed message variants held by a Conversation. -/
inductive Message where
  | system (content : String)
  | user (content : String)
  | assistant (content : PyVal) (tool_calls : Option PyVal)
  | toolResult (tool_call_id : String) (name : String) (content : String)

/-- Conversation.add_assistant_message: append an assistant message when
the response is a dict with a non-empty "choices"; the list is returned
in place of the mutated self.messages. -/
def Conversation.add_assistant_message (response : PyVal) (messages : List Message) :
    Except PyErr (List Message) :=
  match response with
  | PyVal.pyDict kvs =>
      match lookupKey kvs "choices" with
      | Option.none => .ok messages
      | Option.some choices =>
          match choices.pyLen with
          | .error e => .error e
          | .ok n =>
              if n > 0 then
                match choices.index0 with
                | .error e => .error e
                | .ok c0 =>
                    match c0.getStr "message" with
                    | .error e => .error e
                    | .ok msg =>
                        match msg.hasKey "tool_calls" with
                        | .error e => .error e
                        | .ok has_tc =>
                            if has_tc then
                              match msg.getStr "tool_calls" with
                              | .error e => .error e
                              | .ok tc =>
                                  if tc.truthy then
                                    match msg.getStr "content" with
                                    | .error e => .error e
                                    | .ok content =>
                                        .ok (messages ++
                                          [Message.assistant content (Option.some tc)])
                                  else
                                    match msg.getStr "content" with
                                    | .error e => .error e
                                    | .ok content =>
                                        .ok (messages ++
                                          [Message.assistant content Option.none])
                            else
                              match msg.getStr "content" with
                              | .error e => .error e
                              | .ok content =>
                                  .ok (messages ++
                                    [Message.assistant content Option.none])
              else .ok messages
  | _ => .ok messages

/-- C10, amended: a response that is not a mapping, or lacks "choices",
or whose "choices" is an empty list, leaves the message list unchanged
and raises nothing; but a mapping whose "choices" is a non-sized value
raises TypeError instead of being dropped (see the counterexample). -/
theorem c10_add_assistant_message_amended :
    (∀ v msgs, (∀ kvs, v ≠ PyVal.pyDict kvs) →
        Conversation.add_assistant_message v msgs = .ok msgs) ∧
    (∀ kvs msgs, lookupKey kvs "choices" = Option.none →
        Conversation.add_assistant_message (PyVal.pyDict kvs) msgs = .ok msgs) ∧
    (∀ kvs msgs, lookupKey kvs "choices" = Option.some (PyVal.pyList []) →
        Conversation.add_assistant_message (PyVal.pyDict kvs) msgs = .ok msgs) := by
  refine ⟨?_, ?_, ?_⟩
  · intro v msgs hv
    cases v
    case pyDict kvs => exact absurd rfl (hv kvs)
    all_goals simp [Conversation.add_assistant_message]
  · intro kvs msgs hch
    simp [Conversation.add_assistant_message, hch]
  · intro kvs msgs hch
    simp [Conversation.add_assistant_message, hch, PyVal.pyLen]

/-- Witness for c10_add_assistant_message_amended at a string response,
a choices-less dict and an empty choices list. -/
theorem c10_add_assistant_message_witness :
    Conversation.add_assistant_message (PyVal.pyStr "oops") [] = .ok [] ∧
    Conversation.add_assistant_message (PyVal.pyDict [("id", PyVal.pyStr "1")]) [] =
      .ok [] ∧
    Conversation.add_assistant_message
        (PyVal.pyDict [("choices", PyVal.pyList [])]) [] = .ok [] :=
  ⟨c10_add_assistant_message_amended.1 _ [] (fun kvs h => PyVal.noConfusion h),
   c10_add_assistant_message_amended.2.1 _ [] (by rfl),
   c10_add_assistant_message_amended.2.2 _ [] (by rfl)⟩

/-- C10 counterexample: a mapping whose "choices" is the integer 5 is
not "a mapping containing a non-empty choices list", yet
add_assistant_message raises TypeError at len() instead of silently
dropping it. -/
theorem c10_counterexample :
    Conversation.add_assistant_message (PyVal.pyDict [("choices", PyVal.pyInt 5)]) [] =
      .error (.typeError "object has no len()") := by
  rfl

/-!
## ContextParser._parse_stdio (core/context.py, lines 138-165)

The loop appends each validated entry to ctx.tools_config before looking
at the next one, so entries accepted before a failing entry stay on the
context.  The embedding returns the final tools_config list together
with the raised error, if any.
-/

/-- all(k in tool_config for k in ["name", "command", "path"]), with
Python short-circuiting and membership errors. -/
def hasRequiredKeys (t : PyVal) : Except PyErr Bool :=
  match t.hasKey "name" with
  | .error e => .error e
  | .ok false => .ok false
  | .ok true =>
      match t.hasKey "command" with
      | .error e => .error e
      | .ok false => .ok false
      | .ok true => t.hasKey "path"

/-- The message of the per-entry ValueError of _parse_stdio. -/
def invalidToolMsg (t : PyVal) : String :=
  "Invalid tool definition. Each tool must have \x27name\x27, \x27command\x27, " ++
    "and \x27path\x27. Got: " ++ pyStrOf t

/-- The for-loop of _parse_stdio over the tools list. -/
def parse_stdio_loop (tools : List PyVal) (cfg : List PyVal) :
    List PyVal × Option PyErr :=
  match tools with
  | [] => (cfg, Option.none)
  | t :: rest =>
      match hasRequiredKeys t with
      | .error e => (cfg, Option.some e)
      | .ok true => parse_stdio_loop rest (cfg ++ [t])
      | .ok false => (cfg, Option.some (.valueError (invalidToolMsg t)))

/-- ContextParser._parse_stdio: require the "tools" option to be a list,
then run the per-entry loop against the tools_config of the context. -/
def ContextParser.parse_stdio (options : List (String × PyVal)) (tools_config : List PyVal) :
    List PyVal × Option PyErr :=
  match lookupKey options "tools" with
  | Option.some (PyVal.pyList ts) => parse_stdio_loop ts tools_config
  | _ => (tools_config, Option.some (.valueError
      "\x27tools\x27 option is required and must be a list for stdio"))

theorem parse_stdio_loop_all_ok (ts : List PyVal) :
    ∀ cfg, (∀ t ∈ ts, hasRequiredKeys t = .ok true) →
      parse_stdio_loop ts cfg = (cfg ++ ts, Option.none) := by
  induction ts with
  | nil => intro cfg _; simp [parse_stdio_loop]
  | cons t rest ih =>
      intro cfg h
      have ht := h t (List.mem_cons_self t rest)
      have hrest : ∀ x ∈ rest, hasRequiredKeys x = .ok true :=
        fun x hx => h x (List.mem_cons_of_mem t hx)
      simp [parse_stdio_loop, ht, ih (cfg ++ [t]) hrest]

theorem parse_stdio_loop_fails (bad : PyVal) (post : List PyVal)
    (hbad : hasRequiredKeys bad = .ok false) :
    ∀ (pre : List PyVal) (cfg : List PyVal),
      (∀ t ∈ pre, hasRequiredKeys t = .ok true) →
      parse_stdio_loop (pre ++ bad :: post) cfg =
        (cfg ++ pre, Option.some (.valueError (invalidToolMsg bad))) := by
  intro pre
  induction pre with
  | nil => intro cfg _; simp [parse_stdio_loop, hbad]
  | cons t rest ih =>
      intro cfg h
      have ht := h t (List.mem_cons_self t rest)
      have hrest : ∀ x ∈ rest, hasRequiredKeys x = .ok true :=
        fun x hx => h x (List.mem_cons_of_mem t hx)
      simp only [List.cons_append, parse_stdio_loop, ht]
      simp only [List.append_eq]
      rw [ih (cfg ++ [t]) hrest]
      simp

/-- C4, amended: _parse_stdio checks only that each entry carries the
keys name, command and path (their values may be empty); on a violating
entry it raises a ValueError naming the three required keys and the
offending entry, but every entry accepted before it has already been
appended to the tool-server configuration list of the context and remains
there. -/
theorem c4_parse_stdio_amended (pre post : List PyVal) (bad : PyVal) (cfg : List PyVal)
    (hpre : ∀ t ∈ pre, hasRequiredKeys t = .ok true)
    (hbad : hasRequiredKeys bad = .ok false) :
    ContextParser.parse_stdio [("tools", PyVal.pyList (pre ++ bad :: post))] cfg =
      (cfg ++ pre, Option.some (.valueError (invalidToolMsg bad))) ∧
    strContainsSub (invalidToolMsg bad) "name" = true ∧
    strContainsSub (invalidToolMsg bad) "command" = true ∧
    strContainsSub (invalidToolMsg bad) "path" = true ∧
    strContainsSub (invalidToolMsg bad) (pyStrOf bad) = true := by
  refine ⟨?_, ?_, ?_, ?_, ?_⟩
  · exact parse_stdio_loop_fails bad post hbad pre cfg hpre
  · have h := strContainsSub_middle
      "Invalid tool definition. Each tool must have \x27" "name"
      ("\x27, \x27command\x27, and \x27path\x27. Got: " ++ pyStrOf bad)
    have harr : "Invalid tool definition. Each tool must have \x27" ++ "name" ++
        ("\x27, \x27command\x27, and \x27path\x27. Got: " ++ pyStrOf bad) =
        invalidToolMsg bad := by
      simp [invalidToolMsg]
      rfl
    rw [harr] at h
    exact h
  · have h := strContainsSub_middle
      "Invalid tool definition. Each tool must have \x27name\x27, \x27" "command"
      ("\x27, and \x27path\x27. Got: " ++ pyStrOf bad)
    have harr : "Invalid tool definition. Each tool must have \x27name\x27, \x27" ++
        "command" ++ ("\x27, and \x27path\x27. Got: " ++ pyStrOf bad) =
        invalidToolMsg bad := by
      simp [invalidToolMsg]
      rfl
    rw [harr] at h
    exact h
  · have h := strContainsSub_middle
      "Invalid tool definition. Each tool must have \x27name\x27, \x27command\x27, and \x27"
      "path" ("\x27. Got: " ++ pyStrOf bad)
    have harr : "Invalid tool definition. Each tool must have \x27name\x27, \x27command\x27, and \x27"
        ++ "path" ++ ("\x27. Got: " ++ pyStrOf bad) = invalidToolMsg bad := by
      simp [invalidToolMsg]
      rfl
    rw [harr] at h
    exact h
  · have h := strContainsSub_middle
      ("Invalid tool definition. Each tool must have \x27name\x27, \x27command\x27, " ++
        "and \x27path\x27. Got: ") (pyStrOf bad) ""
    have harr : ("Invalid tool definition. Each tool must have \x27name\x27, \x27command\x27, " ++
        "and \x27path\x27. Got: ") ++ pyStrOf bad ++ "" = invalidToolMsg bad := by
      simp [invalidToolMsg]
    rw [harr] at h
    exact h

/-- Witness for c4_parse_stdio_amended: one complete entry followed by an
entry missing command and path. -/
theorem c4_parse_stdio_witness :
    ContextParser.parse_stdio
        [("tools", PyVal.pyList
          [PyVal.pyDict [("name", PyVal.pyStr "a"), ("command", PyVal.pyStr "c"),
            ("path", PyVal.pyStr "p")],
           PyVal.pyDict [("name", PyVal.pyStr "x")]])] [] =
      ([PyVal.pyDict [("name", PyVal.pyStr "a"), ("command", PyVal.pyStr "c"),
          ("path", PyVal.pyStr "p")]],
        Option.some (.valueError (invalidToolMsg (PyVal.pyDict
          [("name", PyVal.pyStr "x")])))) := by
  have h := c4_parse_stdio_amended
    [PyVal.pyDict [("name", PyVal.pyStr "a"), ("command", PyVal.pyStr "c"),
      ("path", PyVal.pyStr "p")]] [] (PyVal.pyDict [("name", PyVal.pyStr "x")]) []
    (by
      intro t ht
      rw [List.mem_singleton] at ht
      subst ht
      rfl)
    (by rfl)
  simpa using h.1

/-- C4 counterexample: a failing second entry still leaves the first
entry appended to the configuration list (partial configuration), and an
entry whose name, command and path are all empty strings is accepted
(only key presence is checked). -/
theorem c4_counterexample :
    ContextParser.parse_stdio
        [("tools", PyVal.pyList
          [PyVal.pyDict [("name", PyVal.pyStr "a"), ("command", PyVal.pyStr "c"),
            ("path", PyVal.pyStr "p")],
           PyVal.pyDict [("name", PyVal.pyStr "x")]])] [] =
      ([PyVal.pyDict [("name", PyVal.pyStr "a"), ("command", PyVal.pyStr "c"),
          ("path", PyVal.pyStr "p")]],
        Option.some (.valueError (invalidToolMsg (PyVal.pyDict
          [("name", PyVal.pyStr "x")])))) ∧
    ContextParser.parse_stdio
        [("tools", PyVal.pyList
          [PyVal.pyDict [("name", PyVal.pyStr ""), ("command", PyVal.pyStr ""),
            ("path", PyVal.pyStr "")]])] [] =
      ([PyVal.pyDict [("name", PyVal.pyStr ""), ("command", PyVal.pyStr ""),
          ("path", PyVal.pyStr "")]], Option.none) :=
  ⟨rfl, rfl⟩

/-!
## LLMExecutor (core/llm_executor.py)

_initialize_client (lines 46-86) returns early when self._client is set;
otherwise it loads LLMConfig() and dispatches on the provider.  Neither
branch can produce a client in the source:

- LLMConfig validation failures raise plain ValueError
  (config.py, _get_required_env and friends), and LLMConfigurationError
  subclasses LLMError, not ValueError, so except LLMConfigurationError
  at line 84 does not catch them;
- with a loadable OpenAI configuration, the call
  OpenAIClient(config=..., session_id=..., tool_converter=...) raises
  TypeError — OpenAIClient.__init__ (openai/client.py line 50) has no
  tool_converter parameter;
- with a loadable Gemini configuration, GeminiClient.__init__
  (gemini/client.py line 71) runs super().__init__(config,
  tool_converter, session_id), three positional arguments against the
  two-parameter BaseLLMClient.__init__ (base.py line 29) — TypeError.

get_completion (line 118) calls _initialize_client() outside its try
block, so these exceptions escape to the caller.  The build outcome of
one LLMConfig() load is modelled by LLMConfigOutcome: a loaded
configuration for one of the two providers, or the ValueError message
its validation raises.
-/

/-- An initialized LLM client, abstracted to its completion response. -/
abbrev LLMClient := PyVal

/-- The provider selected by a successfully loaded LLMConfig. -/
inductive LLMProviderTag where
  | openai
  | gemini
  deriving DecidableEq

/-- What one LLMConfig() load yields: a configuration for a provider, or
the plain ValueError raised by its environment validation. -/
inductive LLMConfigOutcome where
  | loaded (provider : LLMProviderTag)
  | configValueError (msg : String)

/-- LLMExecutor._initialize_client: keep an existing client; otherwise
load the configuration and build the provider client.  A ValueError from
LLMConfig() passes the except LLMConfigurationError handler uncaught,
and both provider constructor calls raise TypeError before any client
exists (see the section comment). -/
def LLMExecutor.initialize_client (outcome : LLMConfigOutcome)
    (client : Option LLMClient) : Except PyErr (Option LLMClient) :=
  match client with
  | Option.some c => .ok (Option.some c)
  | Option.none =>
      match outcome with
      | .configValueError msg => .error (.valueError msg)
      | .loaded .openai => .error (.typeError
          "OpenAIClient.__init__() got an unexpected keyword argument \x27tool_converter\x27")
      | .loaded .gemini => .error (.typeError
          "BaseLLMClient.__init__() takes from 2 to 3 positional arguments but 4 were given")

/-- LLMExecutor.get_completion: _initialize_client() runs outside the
try block, so its exceptions propagate; without a client the call
returns None; with a client the try body runs, where a second
LLMConfig() failure would be swallowed by the blanket except and
converted to None.  The pair is the new client state and the returned
completion. -/
def LLMExecutor.get_completion (outcome : LLMConfigOutcome)
    (client : Option LLMClient) : Except PyErr (Option LLMClient × Option PyVal) :=
  match LLMExecutor.initialize_client outcome client with
  | .error e => .error e
  | .ok Option.none => .ok (Option.none, Option.none)
  | .ok (Option.some c) =>
      match outcome with
      | .configValueError _ => .ok (Option.some c, Option.none)
      | .loaded _ => .ok (Option.some c, Option.some c)

/-- C3: on a fresh Session no get_completion call returns quietly, for
any build outcome: a loadable OpenAI or Gemini configuration makes the
provider constructor raise TypeError (unexpected keyword, wrong arity),
and a configuration-load failure raises the plain ValueError that
except LLMConfigurationError does not catch — all escaping
get_completion, whose try begins only after _initialize_client().
Nothing is caught, remembered or returned as "no client available". -/
theorem c3_get_completion_always_raises :
    (∀ outcome, ∃ e, LLMExecutor.get_completion outcome Option.none = .error e) ∧
    LLMExecutor.get_completion (.loaded .openai) Option.none =
      .error (.typeError
        "OpenAIClient.__init__() got an unexpected keyword argument \x27tool_converter\x27") ∧
    LLMExecutor.get_completion (.loaded .gemini) Option.none =
      .error (.typeError
        "BaseLLMClient.__init__() takes from 2 to 3 positional arguments but 4 were given") ∧
    LLMExecutor.get_completion
        (.configValueError
          "Required environment variable \x27MCPBRIDGE_OPENAI_API_KEY\x27 is not set")
        Option.none =
      .error (.valueError
        "Required environment variable \x27MCPBRIDGE_OPENAI_API_KEY\x27 is not set") := by
  refine ⟨?_, rfl, rfl, rfl⟩
  intro outcome
  cases outcome with
  | loaded p => cases p <;> exact ⟨_, rfl⟩
  | configValueError msg => exact ⟨_, rfl⟩
